import Mathlib

/-!
# Verification of the Waybar `workspace_tasks` module core

Shallow embedding of the identity-resolution and workspace-model logic of
`src/modules/sway/workspace_tasks.cpp` and of the application-info cache of
`include/util/appinfo_provider.hpp`, with theorems settling the spec claims.

Conventions of the embedding:
* C++ `std::string` becomes `String`, `int`/`int32_t` become `Int`,
  `uint32_t pid` becomes `Nat`.
* The filesystem / GIO probes (`Gio::DesktopAppInfo::create`, the BAMF, snap
  and flatpak probes, the `AppInfoCacheService` lookup) are effects outside the
  program text; they enter the model as oracles collected in `ResolveEnv`.
  A `none` result models the C++ null `Glib::RefPtr`.
* GTK calls (style classes, packing buttons) are modelled only where they carry
  model state: a workspace records which window buttons were packed into its
  content box (`packed`), mirroring `content.pack_end` in `addWindow`.
-/

namespace WaybarModel

/-- An application descriptor as seen through `Gio::DesktopAppInfo`:
`get_id()` and `get_icon()` (the icon as an optional opaque string). -/
structure AppInfo where
  id : String
  icon : Option String
deriving DecidableEq, Repr

/-- `WindowProperties` from `workspace_tasks.cpp` (lines 65–95): the fields a
window node carries after `fromJson`. -/
structure WindowProperties where
  title : String
  appId : String
  «instance» : String
  pid : Nat
  focused : Bool
  urgent : Bool
  visible : Bool
deriving DecidableEq, Repr

/-- `WorkspaceProperties` from `workspace_tasks.cpp` (lines 97–113). -/
structure WorkspaceProperties where
  title : String
  num : Int
  focused : Bool
  urgent : Bool
  visible : Bool
deriving DecidableEq, Repr

/-- The external lookup effects used by `Window::findInfo`
(`workspace_tasks.cpp` lines 224–262), as oracles:
* `cacheLookup` — `AppInfoCacheService::instance().lookup`;
* `desktopCreate` — `Gio::DesktopAppInfo::create` by desktop-file id;
* `bamfEnv`, `snap`, `flatpak` — the three pid-keyed probes of
  `appinfo_provider.hpp`. -/
structure ResolveEnv where
  cacheLookup : String → Option AppInfo
  desktopCreate : String → Option AppInfo
  bamfEnv : Nat → Option AppInfo
  snap : Nat → Option AppInfo
  flatpak : Nat → Option AppInfo

/-- `std::tolower` in the default locale on one character (ASCII case fold),
as used in `findInfo`'s strategy 6. -/
def asciiLower (c : Char) : Char :=
  if 'A' ≤ c ∧ c ≤ 'Z' then Char.ofNat (c.toNat + 32) else c

/-- The `std::transform`/`tolower` loop of `findInfo` (lines 254–258). -/
def asciiLowerStr (s : String) : String := s.map asciiLower

/-- `Window::findInfo` (`workspace_tasks.cpp` lines 224–262), translated
statement by statement: each `if (info) return info;` becomes a `match`. -/
def findInfo (env : ResolveEnv) (props : WindowProperties) : Option AppInfo :=
  match (if props.instance ≠ "" then env.cacheLookup props.instance else none) with
  | some info => some info
  | none =>
  match env.desktopCreate (props.appId ++ ".desktop") with
  | some info => some info
  | none =>
  match env.bamfEnv props.pid with
  | some info => some info
  | none =>
  match env.snap props.pid with
  | some info => some info
  | none =>
  match env.flatpak props.pid with
  | some info => some info
  | none => env.desktopCreate (asciiLowerStr props.appId ++ ".desktop")

/-- First `some` in a list of optional results: the semantics of an ordered,
short-circuiting strategy chain as the spec describes it. -/
def firstSome {α : Type} : List (Option α) → Option α
  | [] => none
  | none :: rest => firstSome rest
  | some x :: _ => some x

/-- Spec strategy 1: AppInfoCache lookup by the non-empty instance string. -/
def strat1 (env : ResolveEnv) (props : WindowProperties) : Option AppInfo :=
  if props.instance ≠ "" then env.cacheLookup props.instance else none

/-- Spec strategy 2: direct descriptor-id lookup of `appId ++ ".desktop"`. -/
def strat2 (env : ResolveEnv) (props : WindowProperties) : Option AppInfo :=
  env.desktopCreate (props.appId ++ ".desktop")

/-- Spec strategy 3: BAMF environment-variable probe by pid. -/
def strat3 (env : ResolveEnv) (props : WindowProperties) : Option AppInfo :=
  env.bamfEnv props.pid

/-- Spec strategy 4: snap security-label probe by pid. -/
def strat4 (env : ResolveEnv) (props : WindowProperties) : Option AppInfo :=
  env.snap props.pid

/-- Spec strategy 5: flatpak confinement-manifest probe by pid. -/
def strat5 (env : ResolveEnv) (props : WindowProperties) : Option AppInfo :=
  env.flatpak props.pid

/-- Spec strategy 6: lookup of lowercased `appId ++ ".desktop"`. -/
def strat6 (env : ResolveEnv) (props : WindowProperties) : Option AppInfo :=
  env.desktopCreate (asciiLowerStr props.appId ++ ".desktop")

/-- The six-strategy chain in the spec's order. -/
def strategyChain (env : ResolveEnv) (props : WindowProperties) :
    List (Option AppInfo) :=
  [strat1 env props, strat2 env props, strat3 env props,
   strat4 env props, strat5 env props, strat6 env props]

/-- The `Window` entity (`workspace_tasks.cpp` lines 183–265).
`resolvedAppId = none` models the default-constructed `resolved_app_id`
before `update()` has run; the constructor runs `update()` immediately. -/
structure WindowM where
  id : Int
  props : WindowProperties
  resolvedAppId : Option String := none
deriving DecidableEq, Repr

/-- The identity-assignment part of `Window::update` (lines 206–211):
`resolved_app_id = info ? info->get_id() : props.app_id + ".desktop"`. -/
def WindowM.update (env : ResolveEnv) (w : WindowM) : WindowM :=
  { w with
    resolvedAppId := some (match findInfo env w.props with
      | some info => info.id
      | none => w.props.appId ++ ".desktop") }

/-- The `Window` constructor (lines 190–197): stores id and props, then runs
`update()`. -/
def mkWindow (env : ResolveEnv) (id : Int) (props : WindowProperties) :
    WindowM :=
  WindowM.update env { id := id, props := props }

/-- `Window::getResolvedAppId` (line 264): returns the current value of the
`resolved_app_id` string (empty before the first `update()`). -/
def WindowM.getResolvedAppId (w : WindowM) : String :=
  w.resolvedAppId.getD ""

/-- The `Workspace` entity (`workspace_tasks.cpp` lines 267–346).
`windows` is the `std::vector<Window>`; `packed` records which windows had
their button packed into the content box by `addWindow` (the rendered,
deduplicated subsequence). -/
structure WorkspaceM where
  id : Int
  props : WorkspaceProperties
  windows : List WindowM := []
  packed : List WindowM := []
deriving DecidableEq, Repr

/-- The `Workspace` constructor (lines 275–286): stores id and props with no
windows. (The constructor also calls `update()`, which with an empty window
vector leaves the properties unchanged — see `workspace_update_nil`.) -/
def mkWorkspace (id : Int) (props : WorkspaceProperties) : WorkspaceM :=
  { id := id, props := props }

/-- One iteration of the flag loop in `Workspace::update` (lines 309–312):
`props.focused |= window.props.focused; props.visible |= window.props.visible`. -/
def orStep (p : WorkspaceProperties) (w : WindowM) : WorkspaceProperties :=
  { p with
    focused := p.focused || w.props.focused
    visible := p.visible || w.props.visible }

/-- The model-state effect of `Workspace::update` (lines 305–317): OR-reduce
`focused` and `visible` over the contained windows into the workspace's own
properties. (`urgent` is only used to set a style class, never modified.) -/
def WorkspaceM.update (ws : WorkspaceM) : WorkspaceM :=
  { ws with props := ws.windows.foldl orStep ws.props }

/-- `Workspace::addWindow` (lines 323–345): always `emplace_back` the new
window; then, if any *earlier* window (`windows.begin() .. end()-1`) has the
same resolved app id, skip packing its button, otherwise pack it. -/
def WorkspaceM.addWindow (env : ResolveEnv) (ws : WorkspaceM) (id : Int)
    (props : WindowProperties) : WorkspaceM :=
  let win := mkWindow env id props
  let repeated :=
    ws.windows.any (fun x => x.getResolvedAppId == win.getResolvedAppId)
  if repeated then
    { ws with windows := ws.windows ++ [win] }
  else
    { ws with windows := ws.windows ++ [win], packed := ws.packed ++ [win] }

/-- A node of the decoded `GET_TREE` JSON payload, restricted to the fields
the module reads. `appId = none` models an absent `app_id` member,
`some none` a member holding JSON null (XWayland), `some (some s)` a string
value (Wayland). -/
inductive RawNode where
  | node (type : String) (id : Int) (name : String) (num : Int) (pid : Nat)
      (focused urgent visible : Bool)
      (appId : Option (Option String)) (wmClass : String) (wmInstance : String)
      (nodes : List RawNode) (floating : List RawNode)

def RawNode.type : RawNode → String
  | .node t _ _ _ _ _ _ _ _ _ _ _ _ => t

def RawNode.name : RawNode → String
  | .node _ _ n _ _ _ _ _ _ _ _ _ _ => n

/-- `WindowProperties::fromJson` (lines 74–94): `app_id` non-null selects the
Wayland path (empty instance); otherwise class/instance come from
`window_properties`. -/
def windowPropsOfNode : RawNode → WindowProperties
  | .node _ _ name _ pid f u v appId wmClass wmInstance _ _ =>
    match appId with
    | some (some s) =>
      { title := name, appId := s, «instance» := "", pid := pid,
        focused := f, urgent := u, visible := v }
    | _ =>
      { title := name, appId := wmClass, «instance» := wmInstance, pid := pid,
        focused := f, urgent := u, visible := v }

/-- `WorkspaceProperties::fromJson` (lines 104–112). -/
def workspacePropsOfNode : RawNode → WorkspaceProperties
  | .node _ _ name num _ f u v _ _ _ _ _ =>
    { title := name, num := num, focused := f, urgent := u, visible := v }

/-- `workspaces_.back()->addWindow(...)` guarded by `workspaces_.size() > 0`
(lines 388–392): apply `addWindow` to the last workspace; with no workspace
the window is dropped (only an error is logged). -/
def addToLast (env : ResolveEnv) (id : Int) (props : WindowProperties) :
    List WorkspaceM → List WorkspaceM
  | [] => []
  | [ws] => [ws.addWindow env id props]
  | ws :: rest => ws :: addToLast env id props rest

mutual

/-- `WorkspaceTasksImpl::buildTree` (lines 374–407), threading the
`workspaces_` vector as an accumulator. Per node type:
root/output recurse; a workspace whose title starts with `"__i3"` returns at
once (nothing added, children not visited); other workspaces are appended and
recursed into; a con/floating_con with an `app_id` member is attached to the
last workspace and *not* recursed into; any other type returns at once.
Recursion covers `nodes` then `floating_nodes`. -/
def buildTree (env : ResolveEnv) : RawNode → List WorkspaceM → List WorkspaceM
  | n@(.node t id _ _ _ _ _ _ appId _ _ nodes floating), acc =>
    if t = "root" ∨ t = "output" then
      buildList env floating (buildList env nodes acc)
    else if t = "workspace" then
      let props := workspacePropsOfNode n
      if props.title.take 4 = "__i3" then acc
      else
        buildList env floating
          (buildList env nodes (acc ++ [mkWorkspace id props]))
    else if t = "con" ∨ t = "floating_con" then
      if appId.isSome then addToLast env id (windowPropsOfNode n) acc
      else buildList env floating (buildList env nodes acc)
    else acc

/-- The `for (child : node["nodes"]) buildTree(child)` loops. -/
def buildList (env : ResolveEnv) :
    List RawNode → List WorkspaceM → List WorkspaceM
  | [], acc => acc
  | n :: rest, acc => buildList env rest (buildTree env n acc)

end

/-! ## Sorting of the workspace list (`WorkspaceTasksImpl::update`, lines 146–150)

`std::sort(workspaces_.begin(), workspaces_.end(), a.num < b.num)` is modelled
relationally: the C++ standard guarantees that the output is a permutation of
the input that is sorted with respect to the comparator, and nothing more (in
particular the order of equivalent elements is *not* specified — `std::sort`
is not stable). -/

/-- The comparator passed to `std::sort` (lines 148–150). -/
def sortCmp (a b : WorkspaceM) : Prop := a.props.num < b.props.num

instance : DecidableRel sortCmp := fun a b =>
  Int.decLt a.props.num b.props.num

/-- The post-condition `std::sort` guarantees for the call in `update()`:
the output is a permutation of the input and no later element compares
strictly below an earlier one. Every execution produces some list satisfying
this, and any such list is a possible outcome. -/
def isSortOutcome (inp out : List WorkspaceM) : Prop :=
  inp.Perm out ∧ out.Pairwise (fun a b => ¬ sortCmp b a)

/-- Stability in the sense of the spec: any two workspaces that compare equal
on `num` and appear in some order in the input appear in the same order in
the output. -/
def preservesEqOrder (inp out : List WorkspaceM) : Prop :=
  ∀ x y : WorkspaceM, List.Sublist [x, y] inp → x.props.num = y.props.num →
    List.Sublist [x, y] out

/-! ## AppInfoCacheService (`appinfo_provider.hpp`, lines 153–185) -/

/-- What `load()` sees of one installed application through
`Gio::DesktopAppInfo`: its id and its `StartupWMClass` (empty when the
desktop file declares none). -/
structure Desc where
  id : String
  wmClass : String
deriving DecidableEq, Repr

/-- `std::unordered_map::emplace(k, v)`: inserts only when no entry with key
`k` exists; an existing entry is left untouched. The map is modelled as an
association list with unique keys (insertion order is irrelevant to
`lookup`). -/
def emplace (m : List (String × Desc)) (k : String) (v : Desc) :
    List (String × Desc) :=
  if m.any (fun e => e.1 == k) then m else m ++ [(k, v)]

/-- `AppInfoCacheService::load` (lines 174–181): clear the map, then for every
installed descriptor `emplace(get_startup_wm_class(), descriptor)` — no key
is skipped, empty or not. -/
def load (all : List Desc) : List (String × Desc) :=
  all.foldl (fun m d => emplace m d.wmClass d) []

/-- `AppInfoCacheService::lookup` (lines 160–166): `find` in the hash map,
null when absent. -/
def cacheFind (m : List (String × Desc)) (k : String) : Option Desc :=
  (m.find? (fun e => e.1 == k)).map (fun e => e.2)

/-! ## SyncController (`onEvent`/`getTree`, lines 348–359) -/

/-- Outgoing IPC requests the module can send. -/
inductive IpcCmd where
  | getTree
  | command (payload : String)
deriving DecidableEq, Repr

/-- `WorkspaceTasksImpl::onEvent` (lines 348–351): on *every* subscribed
compositor notification it calls `getTree()`, which sends one
`IPC_GET_TREE` request — unconditionally, with no inspection of any
in-flight state. -/
def onEventCmds : List IpcCmd := [IpcCmd.getTree]

/-- Events visible to the request-counting model: a compositor change
notification (handled by `onEvent`) or the arrival of a `GET_TREE`
response (handled by `onCmd`). -/
inductive SyncEvt where
  | notify
  | response
deriving DecidableEq, Repr

/-- Number of `GET_TREE` requests in flight after one event: a notification
adds the requests `onEvent` sends; a response retires one. -/
def inFlightStep (n : Nat) : SyncEvt → Nat
  | .notify => n + (onEventCmds.filter (fun c => c == IpcCmd.getTree)).length
  | .response => n - 1

/-- Requests in flight after a sequence of events, starting from none. -/
def inFlightAfter (evts : List SyncEvt) : Nat :=
  evts.foldl inFlightStep 0

/-! ## cycleWorkspace (`WorkspaceTasksImpl::cycleWorkspace`, lines 170–178)

`ssize_t i` plus `int delta` is a signed sum, but `%` against
`workspaces_.size()` (a `size_t`) converts both operands to the unsigned
64-bit type first; the remainder is computed on `size_t`. -/

/-- Conversion of a signed 64-bit value to `size_t`: reduction modulo 2^64. -/
def toSizeT (x : Int) : Nat := (x % (2 ^ 64 : Int)).toNat

/-- The index expression `(i + delta) % workspaces_.size()` as C++ evaluates
it: usual arithmetic conversions turn `i + delta` into a `size_t`, then the
unsigned remainder is taken. -/
def cycleIndex (count : Nat) (i : Nat) (delta : Int) : Nat :=
  toSizeT ((i : Int) + delta) % count

/-- The index expression as the claim describes it: the language's *signed*
remainder (C++ `%` on signed operands truncates toward zero). -/
def cycleIndexClaimed (count : Nat) (i : Nat) (delta : Int) : Int :=
  Int.tmod ((i : Int) + delta) (count : Int)

/-- `cycleWorkspace` (lines 170–178): find the first focused workspace; if
none, do nothing; otherwise index `workspaces_` at
`(i + delta) % workspaces_.size()`. Returns the index accessed. -/
def cycleTargetIndex (wss : List WorkspaceM) (delta : Int) : Option Nat :=
  match wss.findIdx? (fun w => w.props.focused) with
  | none => none
  | some i => some (cycleIndex wss.length i delta)

/-! ## Concrete instances used in witnesses and counterexamples -/

/-- An environment in which every probe misses. -/
def noEnv : ResolveEnv :=
  ⟨fun _ => none, fun _ => none, fun _ => none, fun _ => none, fun _ => none⟩

/-- The cached descriptor used in the strategy-chain scenario. -/
def cachedInfo : AppInfo := ⟨"cached.desktop", none⟩

/-- An environment whose cache knows `"app1"` and whose later probes would all
answer differently, witnessing the short-circuit. -/
def envW : ResolveEnv where
  cacheLookup := fun s => if s = "app1" then some cachedInfo else none
  desktopCreate := fun _ => some ⟨"direct.desktop", none⟩
  bamfEnv := fun _ => some ⟨"bamf.desktop", none⟩
  snap := fun _ => some ⟨"snap.desktop", none⟩
  flatpak := fun _ => some ⟨"flatpak.desktop", none⟩

/-- An XWayland window with class `"Slack"` and instance `"app1"`. -/
def propsW : WindowProperties :=
  { title := "t", appId := "Slack", «instance» := "app1", pid := 7,
    focused := false, urgent := false, visible := false }

/-- A window with empty `appId`, empty instance and pid 0. -/
def emptyProps : WindowProperties :=
  { title := "", appId := "", «instance» := "", pid := 0,
    focused := false, urgent := false, visible := false }

/-- A `con` window node carrying a Wayland `app_id`. -/
def conNode (id : Int) (appId : String) : RawNode :=
  .node "con" id "w" 0 0 false false false (some (some appId)) "" "" [] []

/-- A payload whose single workspace holds two windows with the same
`app_id`, hence the same resolved identity under `noEnv`. -/
def payloadDup : RawNode :=
  .node "root" 0 "" 0 0 false false false none "" ""
    [.node "workspace" 1 "1" 1 0 false false false none "" ""
      [conNode 10 "app", conNode 11 "app"] []] []

/-- A scratchpad workspace node with a window child. -/
def scratchNode : RawNode :=
  .node "workspace" 42 "__i3_scratch" (-1) 0 false false false none "" ""
    [conNode 99 "hidden"] []

/-- Two workspaces sharing `num = 5` but otherwise distinct. -/
def wsA : WorkspaceM := ⟨1, ⟨"a", 5, false, false, false⟩, [], []⟩

def wsB : WorkspaceM := ⟨2, ⟨"b", 5, false, false, false⟩, [], []⟩

/-- A focused workspace. -/
def focWs : WorkspaceM := ⟨0, ⟨"f", 9, true, false, false⟩, [], []⟩

/-- A window whose compositor-reported `urgent` flag is set. -/
def urgentWin : WindowM :=
  mkWindow noEnv 5
    { title := "t", appId := "x", «instance» := "", pid := 0,
      focused := false, urgent := true, visible := false }

/-- A workspace with `urgent = false` seed containing `urgentWin`. -/
def urgentWs : WorkspaceM := ⟨3, ⟨"w", 1, false, false, false⟩, [urgentWin], []⟩

/-- Registry descriptors: two colliding on key `"k"`, one with an empty key. -/
def descA : Desc := ⟨"a1.desktop", "k"⟩

def descB : Desc := ⟨"a2.desktop", "k"⟩

def descE : Desc := ⟨"a3.desktop", ""⟩

/-! ## Claims -/

/-- **C1.** Identity resolution runs exactly the six strategies in the spec's
order — `findInfo` equals the first success of the chain (cache by instance,
direct id, BAMF, snap, flatpak, lowercased id) — and it short-circuits: when
the instance string is non-empty and cached, the result is the cached
descriptor for *every* choice of the later probes, so strategies 2–6 are never
consulted. -/
theorem c1_strategy_chain_order (env : ResolveEnv) (props : WindowProperties) :
    findInfo env props = firstSome (strategyChain env props) ∧
    (∀ (d : AppInfo) (c dc : String → Option AppInfo)
       (b s f : Nat → Option AppInfo),
       props.instance ≠ "" → c props.instance = some d →
       findInfo ⟨c, dc, b, s, f⟩ props = some d) := by
  constructor
  · by_cases hi : props.instance = "" <;>
      cases h1 : env.cacheLookup props.instance <;>
      cases h2 : env.desktopCreate (props.appId ++ ".desktop") <;>
      cases h3 : env.bamfEnv props.pid <;>
      cases h4 : env.snap props.pid <;>
      cases h5 : env.flatpak props.pid <;>
      cases h6 : env.desktopCreate (asciiLowerStr props.appId ++ ".desktop") <;>
      simp [findInfo, strategyChain, strat1, strat2, strat3, strat4, strat5,
        strat6, firstSome, hi, h1, h2, h3, h4, h5, h6]
  · intro d c dc b s f hne hc
    simp [findInfo, hne, hc]

/-- Witness for C1 at the spec's scenario: instance `"app1"` cached, later
probes all answering differently — resolution returns the cached descriptor. -/
theorem c1_strategy_chain_order_witness :
    findInfo envW propsW = some cachedInfo :=
  (c1_strategy_chain_order envW propsW).2 cachedInfo envW.cacheLookup
    envW.desktopCreate envW.bamfEnv envW.snap envW.flatpak
    (by decide) (by simp [envW, propsW])

/-- **C2.** A window never finishes construction without a resolved identity:
`resolvedAppId` is always present afterwards, and when every strategy misses
it is the synthetic fallback `props.appId ++ ".desktop"`. -/
theorem c2_identity_always_resolved (env : ResolveEnv) (id : Int)
    (props : WindowProperties) :
    (mkWindow env id props).resolvedAppId.isSome = true ∧
    (findInfo env props = none →
      (mkWindow env id props).resolvedAppId =
        some (props.appId ++ ".desktop")) := by
  refine ⟨rfl, fun h => ?_⟩
  simp [mkWindow, WindowM.update, h]

/-- Witness for C2 at the degenerate input: empty `appId`, pid 0, every probe
missing — the identity is the synthetic `".desktop"`. -/
theorem c2_identity_always_resolved_witness :
    (mkWindow noEnv 0 emptyProps).resolvedAppId =
      some (emptyProps.appId ++ ".desktop") :=
  (c2_identity_always_resolved noEnv 0 emptyProps).2 rfl

/-- The invariant `addWindow` maintains: the packed (rendered) windows have
pairwise distinct resolved identities, and every packed identity is realized
by some window in the vector. -/
def wsInv (ws : WorkspaceM) : Prop :=
  ws.packed.Pairwise
    (fun a b => a.getResolvedAppId ≠ b.getResolvedAppId) ∧
  ∀ w ∈ ws.packed, ∃ v ∈ ws.windows, v.getResolvedAppId = w.getResolvedAppId

theorem wsInv_addWindow (env : ResolveEnv) (ws : WorkspaceM) (id : Int)
    (props : WindowProperties) (h : wsInv ws) :
    wsInv (ws.addWindow env id props) := by
  obtain ⟨hpw, hmem⟩ := h
  unfold WorkspaceM.addWindow
  cases hrep : ws.windows.any
      (fun x => x.getResolvedAppId == (mkWindow env id props).getResolvedAppId) with
  | true =>
    simp only [hrep]
    rw [if_pos trivial]
    refine ⟨hpw, fun w hw => ?_⟩
    obtain ⟨v, hv, hveq⟩ := hmem w hw
    exact ⟨v, List.mem_append_left _ hv, hveq⟩
  | false =>
    simp only [hrep]
    rw [if_neg (fun h => Bool.false_ne_true h)]
    have hfresh : ∀ v ∈ ws.windows,
        v.getResolvedAppId ≠ (mkWindow env id props).getResolvedAppId := by
      intro v hv
      have := List.any_eq_false.mp hrep v hv
      simpa using this
    constructor
    · rw [List.pairwise_append]
      refine ⟨hpw, List.pairwise_singleton _ _, ?_⟩
      intro a ha b hb
      have hb' : b = mkWindow env id props := List.mem_singleton.mp hb
      subst hb'
      obtain ⟨v, hv, hveq⟩ := hmem a ha
      rw [← hveq]
      exact hfresh v hv
    · intro w hw
      rcases List.mem_append.mp hw with hw | hw
      · obtain ⟨v, hv, hveq⟩ := hmem w hw
        exact ⟨v, List.mem_append_left _ hv, hveq⟩
      · have hw' : w = mkWindow env id props := List.mem_singleton.mp hw
        subst hw'
        exact ⟨mkWindow env id props,
          List.mem_append_right _ (List.mem_singleton_self _), rfl⟩

theorem wsInv_foldl (env : ResolveEnv) (adds : List (Int × WindowProperties))
    (ws : WorkspaceM) (h : wsInv ws) :
    wsInv (adds.foldl (fun ws a => ws.addWindow env a.1 a.2) ws) := by
  induction adds generalizing ws with
  | nil => exact h
  | cons a rest ih =>
    exact ih _ (wsInv_addWindow env ws a.1 a.2 h)

/-- **C3 counterexample.** Rebuilding from a payload whose workspace holds two
`con` nodes with the same `app_id` yields one workspace containing two
*distinct* windows (ids 10 and 11) with the *same* resolved identity:
`addWindow` always appends to the window vector, so the claim that such a
window "is not added to that workspace" is false. -/
theorem c3_counterexample :
    ((buildTree noEnv payloadDup []).map fun ws =>
        ws.windows.map fun w => (w.id, w.getResolvedAppId)) =
      [[(10, "app.desktop"), (11, "app.desktop")]] := by
  decide

/-- **C3 amended.** The dedup applies to the *rendered* window buttons, not to
the window vector: `addWindow` always appends the window, but packs its button
only when no earlier window of the workspace has the same resolved identity;
hence after any sequence of `addWindow` calls on a fresh workspace the packed
buttons have pairwise distinct resolved identities (first occurrence wins). -/
theorem c3_amended_packed_dedup (env : ResolveEnv)
    (adds : List (Int × WindowProperties)) (id : Int)
    (props : WorkspaceProperties) :
    ((adds.foldl (fun ws a => ws.addWindow env a.1 a.2)
        (mkWorkspace id props)).packed).Pairwise
      (fun a b => a.getResolvedAppId ≠ b.getResolvedAppId) :=
  (wsInv_foldl env adds (mkWorkspace id props)
    ⟨List.Pairwise.nil, by intro w hw; simp [mkWorkspace] at hw⟩).1

/-- **C4 counterexample.** `std::sort` is not stable: for the input
`[wsA, wsB]` with equal `num`, the output `[wsB, wsA]` satisfies everything
`std::sort` guarantees (permutation, sorted w.r.t. the comparator) yet swaps
the two equal-`num` workspaces, so stability does not follow from the code. -/
theorem c4_counterexample :
    isSortOutcome [wsA, wsB] [wsB, wsA] ∧
    ¬ preservesEqOrder [wsA, wsB] [wsB, wsA] := by
  constructor
  · exact ⟨List.Perm.swap _ _ _, by decide⟩
  · intro h
    have hs := h wsA wsB (List.Sublist.refl _) rfl
    have heq := hs.eq_of_length (by decide)
    exact absurd heq (by decide)

/-- **C4 amended.** After the rebuild's sort, the workspace sequence is a
permutation of the traversal result sorted by `num` ascending; the relative
order of equal-`num` workspaces is *unspecified* (`std::sort` gives no
stability guarantee). -/
theorem c4_amended_sorted (inp out : List WorkspaceM)
    (h : isSortOutcome inp out) :
    out.Pairwise (fun a b => a.props.num ≤ b.props.num) ∧ out.Perm inp :=
  ⟨h.2.imp fun hab => Int.not_lt.mp hab, h.1.symm⟩

/-- Witness for C4 amended: a concrete valid sort outcome is sorted by `num`
and a permutation of the input. -/
theorem c4_amended_sorted_witness :
    ([wsB, wsA].Pairwise fun a b => a.props.num ≤ b.props.num) ∧
    [wsB, wsA].Perm [wsA, wsB] :=
  c4_amended_sorted [wsA, wsB] [wsB, wsA]
    ⟨List.Perm.swap _ _ _, by decide⟩

/-- **C5.** A workspace node whose title starts with the compositor-internal
`"__i3"` marker contributes nothing to the model: `buildTree` returns the
accumulated workspace list unchanged — no Workspace is constructed and, since
the early return precedes the recursion, no window node of its subtree is
attached to any workspace. -/
theorem c5_scratchpad_excluded (env : ResolveEnv) (n : RawNode)
    (acc : List WorkspaceM) (ht : n.type = "workspace")
    (hn : n.name.take 4 = "__i3") :
    buildTree env n acc = acc := by
  cases n with
  | node t id name num pid f u v appId wc wi nodes floating =>
    simp only [RawNode.type] at ht
    simp only [RawNode.name] at hn
    subst ht
    simp [buildTree, workspacePropsOfNode, hn]

/-- Witness for C5: the `"__i3_scratch"` workspace carrying a window child is
processed against a one-workspace model and leaves it untouched. -/
theorem c5_scratchpad_excluded_witness :
    buildTree noEnv scratchNode [mkWorkspace 1 ⟨"1", 1, false, false, false⟩] =
      [mkWorkspace 1 ⟨"1", 1, false, false, false⟩] :=
  c5_scratchpad_excluded noEnv scratchNode _ rfl rfl

/-- The flag loop of `Workspace::update` in closed form: folding `orStep`
OR-accumulates `focused` and `visible` over the windows and leaves every
other property field unchanged. -/
theorem foldl_orStep (l : List WindowM) (p : WorkspaceProperties) :
    l.foldl orStep p =
      { p with
        focused := p.focused || l.any fun w => w.props.focused,
        visible := p.visible || l.any fun w => w.props.visible } := by
  induction l generalizing p with
  | nil => simp
  | cons w t ih =>
    rw [List.foldl_cons, ih]
    simp [orStep, Bool.or_assoc]

/-- **C6.** After `Workspace::update`, `focused` is the OR of the
compositor-reported seed with the `focused` flags of all contained windows,
likewise `visible`; a workspace with no windows keeps its reported properties
verbatim. -/
theorem c6_flag_or_reduction :
    (∀ ws : WorkspaceM,
      (ws.update).props.focused =
          (ws.props.focused || ws.windows.any fun w => w.props.focused) ∧
        (ws.update).props.visible =
          (ws.props.visible || ws.windows.any fun w => w.props.visible)) ∧
    (∀ (id : Int) (props : WorkspaceProperties) (packed : List WindowM),
      (WorkspaceM.mk id props [] packed).update =
        WorkspaceM.mk id props [] packed) := by
  constructor
  · intro ws
    constructor <;> simp [WorkspaceM.update, foldl_orStep]
  · intro id props packed
    rfl

/-- **C7 counterexample.** A workspace whose reported `urgent` seed is `false`
but which contains a window with `urgent = true` still has `urgent = false`
after `Workspace::update`: the urgent flag is *not* OR-reduced over the
windows (the code comments that sway already reports urgency for the
workspace itself). -/
theorem c7_counterexample :
    urgentWs.props.urgent = false ∧
    (urgentWs.windows.any fun w => w.props.urgent) = true ∧
    (urgentWs.update).props.urgent = false := by
  decide

/-- **C7 amended.** Unlike `focused` and `visible`, the `urgent` value of a
workspace is the compositor-reported seed verbatim: `Workspace::update` never
modifies it, whatever the contained windows' urgent flags are. -/
theorem c7_amended_urgent_seed (ws : WorkspaceM) :
    (ws.update).props.urgent = ws.props.urgent := by
  simp [WorkspaceM.update, foldl_orStep]

/-- Left-biased choice on optional results (the behaviour of a map lookup
that is unaffected by entries behind an existing key). -/
def optOr {α : Type} : Option α → Option α → Option α
  | some x, _ => some x
  | none, b => b

theorem optOr_none_right {α : Type} (a : Option α) : optOr a none = a := by
  cases a <;> rfl

theorem optOr_assoc {α : Type} (a b c : Option α) :
    optOr (optOr a b) c = optOr a (optOr b c) := by
  cases a <;> cases b <;> rfl

theorem cacheFind_append (m₁ m₂ : List (String × Desc)) (k : String) :
    cacheFind (m₁ ++ m₂) k = optOr (cacheFind m₁ k) (cacheFind m₂ k) := by
  induction m₁ with
  | nil => simp [cacheFind, optOr]
  | cons e t ih =>
    cases he : (e.1 == k) with
    | true =>
      simp [cacheFind, List.cons_append, List.find?_cons, he, optOr]
    | false =>
      simp only [cacheFind, List.cons_append, List.find?_cons, he] at *
      exact ih

theorem cacheFind_isSome_of_any (m : List (String × Desc)) (k : String)
    (h : m.any (fun e => e.1 == k) = true) : ∃ d, cacheFind m k = some d := by
  obtain ⟨e, he, hk⟩ := List.any_eq_true.mp h
  have : (m.find? fun e => e.1 == k).isSome :=
    List.find?_isSome.mpr ⟨e, he, hk⟩
  obtain ⟨x, hx⟩ := Option.isSome_iff_exists.mp this
  exact ⟨x.2, by simp [cacheFind, hx]⟩

theorem cacheFind_emplace (m : List (String × Desc)) (k k' : String)
    (v : Desc) :
    cacheFind (emplace m k v) k' =
      optOr (cacheFind m k') (if k == k' then some v else none) := by
  unfold emplace
  cases hm : m.any (fun e => e.1 == k) with
  | true =>
    rw [if_pos rfl]
    cases hk : (k == k') with
    | true =>
      have hkk : k = k' := by simpa using hk
      subst hkk
      obtain ⟨d, hd⟩ := cacheFind_isSome_of_any m k hm
      simp [hd, optOr]
    | false => simp [optOr_none_right]
  | false =>
    rw [if_neg (fun h => Bool.false_ne_true h)]
    rw [cacheFind_append]
    congr 1
    cases hk : (k == k') with
    | true =>
      have hkk : k = k' := by simpa using hk
      subst hkk
      simp [cacheFind]
    | false =>
      have hkk : ¬ k = k' := by simpa using hk
      simp [cacheFind, List.find?, show (k == k') = false from hk]

theorem cacheFind_foldl (all : List Desc) (m : List (String × Desc))
    (k : String) :
    cacheFind (all.foldl (fun m d => emplace m d.wmClass d) m) k =
      optOr (cacheFind m k) (all.find? fun d => d.wmClass == k) := by
  induction all generalizing m with
  | nil => rw [List.foldl_nil, List.find?_nil, optOr_none_right]
  | cons d t ih =>
    rw [List.foldl_cons, ih, cacheFind_emplace, optOr_assoc, List.find?_cons]
    congr 1
    cases hd : (d.wmClass == k) <;> simp [optOr]

theorem load_keys_nodup_aux (all : List Desc) (m : List (String × Desc))
    (h : (m.map Prod.fst).Nodup) :
    (((all.foldl (fun m d => emplace m d.wmClass d) m)).map Prod.fst).Nodup := by
  induction all generalizing m with
  | nil => exact h
  | cons d t ih =>
    rw [List.foldl_cons]
    refine ih _ ?_
    unfold emplace
    cases hm : m.any (fun e => e.1 == d.wmClass) with
    | true => rw [if_pos rfl]; exact h
    | false =>
      rw [if_neg (fun hx => Bool.false_ne_true hx)]
      rw [List.map_append]
      rw [List.nodup_append]
      refine ⟨h, List.nodup_singleton _, ?_⟩
      intro x hx hx'
      have hxd : x = d.wmClass := by simpa using hx'
      subst hxd
      obtain ⟨e, he, hfst⟩ := List.mem_map.mp hx
      have := List.any_eq_false.mp hm e he
      simp [hfst] at this

/-- **C8 counterexample.** `load` neither skips empty grouping keys nor lets
the last writer win: with descriptors `a1`, `a2` both keyed `"k"` and `a3`
keyed `""`, the rebuilt map answers `"k"` with the *first* descriptor `a1`
(the claim predicts `a2`) and holds an empty-key entry for `a3` (the claim
predicts none), because `unordered_map::emplace` never overwrites. -/
theorem c8_counterexample :
    cacheFind (load [descA, descB, descE]) "k" = some descA ∧
    cacheFind (load [descA, descB, descE]) "" = some descE := by
  decide

/-- **C8 amended.** The rebuilt map holds at most one descriptor per key
(keys are pairwise distinct), but with *first*-writer-wins semantics and
without skipping empty keys: looking up any key — the empty key included —
returns the first enumerated descriptor whose `StartupWMClass` equals it. -/
theorem c8_amended_cache_first_wins (all : List Desc) (k : String) :
    cacheFind (load all) k = (all.find? fun d => d.wmClass == k) ∧
    ((load all).map Prod.fst).Nodup := by
  constructor
  · rw [load, cacheFind_foldl]
    rfl
  · exact load_keys_nodup_aux all [] List.nodup_nil

/-- **C9 counterexample.** With one `GET_TREE` request already outstanding, a
further change notification makes `onEvent` send another one — after two
back-to-back notifications with no response, two requests are in flight, so
requests are not coalesced and "at most one in flight" fails. -/
theorem c9_counterexample :
    inFlightStep 1 SyncEvt.notify = 2 ∧
    inFlightAfter [SyncEvt.notify, SyncEvt.notify] = 2 := by
  decide

/-- **C9 amended.** `onEvent` issues exactly one `GET_TREE` request on every
change notification, unconditionally — it never inspects any in-flight state,
so concurrent notifications each add a request rather than being coalesced. -/
theorem c9_amended_no_coalescing (n : Nat) :
    inFlightStep n SyncEvt.notify = n + 1 ∧
    onEventCmds = [IpcCmd.getTree] :=
  ⟨rfl, rfl⟩

/-- **C10 counterexample.** Under the claim's reading of the index expression
— the language's *signed* remainder — the first workspace focused with scroll
delta `-1` over three workspaces gives index `-1`, which is out of bounds;
the claim's parenthetical mechanism contradicts its bounds conclusion. (The
code in fact converts to the unsigned `size_t` before `%`, see the amended
theorem.) -/
theorem c10_counterexample :
    cycleIndexClaimed 3 0 (-1) = -1 ∧ ¬ (0 ≤ cycleIndexClaimed 3 0 (-1)) := by
  decide

/-- **C10 amended.** The index `cycleWorkspace` actually accesses is computed
by converting `i + delta` to `size_t` (reduction mod 2^64) and taking the
*unsigned* remainder by the workspace count; whenever a focused workspace
exists (so the list is non-empty), that index is within bounds — also for the
first workspace focused and delta `-1`, where it is `(2^64 - 1) % count`,
not necessarily the last workspace. -/
theorem c10_amended_index_in_bounds (wss : List WorkspaceM) (delta : Int)
    (j : Nat) (h : cycleTargetIndex wss delta = some j) : j < wss.length := by
  unfold cycleTargetIndex at h
  cases hf : wss.findIdx? (fun w => w.props.focused) with
  | none => rw [hf] at h; exact absurd h (by simp)
  | some i =>
    rw [hf] at h
    cases wss with
    | nil => simp at hf
    | cons a t =>
      simp only [Option.some.injEq] at h
      subst h
      exact Nat.mod_lt _ (Nat.succ_pos _)

/-- Witness for C10 amended at the claim's critical input: three workspaces,
the first focused, delta `-1` — the accessed index (concretely
`(2^64 - 1) % 3 = 0`) is within bounds. -/
theorem c10_amended_index_in_bounds_witness :
    (0 : Nat) < [focWs, wsA, wsB].length :=
  c10_amended_index_in_bounds [focWs, wsA, wsB] (-1) 0 (by decide)

end WaybarModel
